import Mathlib

/-!
Shallow embedding of the Antler PTY session manager
(`src/src-tauri/src/pty.rs`) and proofs about it.

Modelling conventions:
- `u32` values are `Nat` with explicit `% 2 ^ 32` where the source can
  overflow (the `AtomicU32.fetch_add` identifier allocator).
- The `HashMap<u32, PtySession>` registry is an association list with
  insert-overwrites semantics; OS handles (`PtyPair`, child process,
  writer) are opaque `Nat` tokens, since the code never inspects them.
- Fallible OS calls (`openpty`, `spawn_command`, `try_clone_reader`,
  `take_writer`, `write_all`, `flush`, `resize`) are oracle parameters of
  type `Except String _`: the caller of the model chooses the outcome,
  and the model follows the source's control flow on it.
- Requests the code makes to the OS that matter to the spec (killing a
  child process) are returned as an explicit effect list.
-/

namespace Antler

/-- Session stored in the registry: mirrors `struct PtySession` with the
OS resources (`pair`, `child`, boxed `writer`) as opaque handles. -/
structure PtySession where
  pair : Nat
  child : Nat
  writer : Nat
deriving DecidableEq, Repr

/-- Association-list lookup mirroring `HashMap::get`. -/
def mapGet (k : Nat) : List (Nat × PtySession) → Option PtySession
  | [] => none
  | (k2, v) :: rest => if k = k2 then some v else mapGet k rest

/-- Removal of every binding of a key, mirroring `HashMap::remove`. -/
def mapRemove (k : Nat) : List (Nat × PtySession) → List (Nat × PtySession)
  | [] => []
  | (k2, v) :: rest => if k2 = k then mapRemove k rest else (k2, v) :: mapRemove k rest

/-- Insertion mirroring `HashMap::insert` (overwrites any old binding). -/
def mapInsert (k : Nat) (v : PtySession) (m : List (Nat × PtySession)) :
    List (Nat × PtySession) :=
  (k, v) :: mapRemove k m

/-- Key set of the registry, mirroring `sessions.keys().copied()`. -/
def mapKeys (m : List (Nat × PtySession)) : List Nat :=
  m.map Prod.fst

/-- Manager state: mirrors `struct PtyState { sessions, next_id }`. -/
structure PtyState where
  sessions : List (Nat × PtySession)
  nextId : Nat
deriving DecidableEq, Repr

/-- Initial state: mirrors `impl Default for PtyState` (empty map,
`next_id = 1`). -/
def PtyState.default : PtyState :=
  { sessions := [], nextId := 1 }

/-- Spawn options: mirrors `struct SpawnOptions`. The `env` HashMap is a
list of key/value pairs in an arbitrary iteration order. -/
structure SpawnOptions where
  cmd : String
  args : List String
  cwd : String
  cols : Nat
  rows : Nat
  env : List (String × String)
deriving DecidableEq, Repr

/-- Command descriptor: mirrors the parts of `portable_pty::CommandBuilder`
the code sets. The environment is an association list whose most recent
binding of a key (frontmost) wins. -/
structure CommandBuilder where
  prog : String
  args : List String
  cwd : Option String
  env : List (String × String)
deriving DecidableEq, Repr

/-- Environment update, mirroring `CommandBuilder::env` (set-or-overwrite). -/
def envSet (m : List (String × String)) (k v : String) : List (String × String) :=
  (k, v) :: m.filter (fun p => p.1 ≠ k)

/-- Environment lookup: the effective value of a key in the descriptor. -/
def envGet (k : String) : List (String × String) → Option String
  | [] => none
  | (k2, v) :: rest => if k = k2 then some v else envGet k rest

/-- Command construction from `spawn_pty` lines 84-94: program, args, cwd,
caller-supplied env entries in iteration order, then the forced
`TERM=xterm-256color`. -/
def buildCommand (options : SpawnOptions) : CommandBuilder :=
  let cmd : CommandBuilder := { prog := options.cmd, args := [], cwd := none, env := [] }
  let cmd := { cmd with args := options.args }
  let cmd := { cmd with cwd := some options.cwd }
  let cmd := { cmd with
    env := options.env.foldl (fun m (kv : String × String) => envSet m kv.1 kv.2) cmd.env }
  { cmd with env := envSet cmd.env "TERM" "xterm-256color" }

/-- Error values: each constructor corresponds to one `format!` branch of
the source, carrying the underlying OS error message where there is one. -/
inductive PtyError where
  | openPtyFailed (msg : String)
  | spawnCommandFailed (msg : String)
  | cloneReaderFailed (msg : String)
  | takeWriterFailed (msg : String)
  | notFound (id : Nat)
  | writeFailed (msg : String)
  | flushFailed (msg : String)
  | resizeFailed (msg : String)
deriving DecidableEq, Repr

/-- Decidable equality for oracle outcomes, used to evaluate the model on
concrete inputs. -/
instance exceptDecEq {ε α : Type} [DecidableEq ε] [DecidableEq α] :
    DecidableEq (Except ε α)
  | Except.ok a, Except.ok b =>
    if h : a = b then isTrue (by rw [h]) else isFalse (by intro hc; cases hc; exact h rfl)
  | Except.ok _, Except.error _ => isFalse (by intro hc; cases hc)
  | Except.error _, Except.ok _ => isFalse (by intro hc; cases hc)
  | Except.error a, Except.error b =>
    if h : a = b then isTrue (by rw [h]) else isFalse (by intro hc; cases hc; exact h rfl)

/-- Outcomes the OS gives to the four fallible steps of `spawn_pty`; on
success each yields an opaque handle. -/
structure SpawnOutcome where
  openPty : Except String Nat
  spawnCommand : Except String Nat
  cloneReader : Except String Nat
  takeWriter : Except String Nat
deriving DecidableEq, Repr

/-- Outcomes of the `write_all` and `flush` calls inside `write_pty`. -/
structure IoOutcome where
  write : Except String Unit
  flush : Except String Unit
deriving DecidableEq, Repr

/-- Request the code issues to the OS as a side effect. -/
inductive Effect where
  | killChild (child : Nat)
deriving DecidableEq, Repr

/-- Model of `spawn_pty` (lines 66-155): open the PTY, build the command,
start the child, `fetch_add` the id (wrapping u32), clone the reader, take
the writer, insert the session. Returns the result, the new state, and
the kill requests issued (none on any spawn path). -/
def spawn_pty (st : PtyState) (options : SpawnOptions) (os : SpawnOutcome) :
    Except PtyError Nat × PtyState × List Effect :=
  match os.openPty with
  | Except.error e => (Except.error (PtyError.openPtyFailed e), st, [])
  | Except.ok pairHandle =>
    let _cmd := buildCommand options
    match os.spawnCommand with
    | Except.error e => (Except.error (PtyError.spawnCommandFailed e), st, [])
    | Except.ok childHandle =>
      let id := st.nextId
      let st1 : PtyState := { st with nextId := (st.nextId + 1) % 2 ^ 32 }
      match os.cloneReader with
      | Except.error e => (Except.error (PtyError.cloneReaderFailed e), st1, [])
      | Except.ok _readerHandle =>
        match os.takeWriter with
        | Except.error e => (Except.error (PtyError.takeWriterFailed e), st1, [])
        | Except.ok writerHandle =>
          (Except.ok id,
           { st1 with
              sessions := mapInsert id ⟨pairHandle, childHandle, writerHandle⟩ st1.sessions },
           [])

/-- Model of `write_pty` (lines 159-181): look up the session (else
`NotFound`), then `write_all` and `flush` through the stored writer. The
registry is returned unchanged on every path. -/
def write_pty (st : PtyState) (id : Nat) (data : String) (os : IoOutcome) :
    Except PtyError Unit × PtyState :=
  match mapGet id st.sessions with
  | none => (Except.error (PtyError.notFound id), st)
  | some _session =>
    match os.write with
    | Except.error e => (Except.error (PtyError.writeFailed e), st)
    | Except.ok _ =>
      match os.flush with
      | Except.error e => (Except.error (PtyError.flushFailed e), st)
      | Except.ok _ => (Except.ok (), st)

/-- Model of `resize_pty` (lines 185-208): look up the session (else
`NotFound`), then issue the resize request, whose outcome is the oracle
`os`. The registry is returned unchanged on every path. -/
def resize_pty (st : PtyState) (id : Nat) (cols rows : Nat) (os : Except String Unit) :
    Except PtyError Unit × PtyState :=
  match mapGet id st.sessions with
  | none => (Except.error (PtyError.notFound id), st)
  | some _session =>
    match os with
    | Except.error e => (Except.error (PtyError.resizeFailed e), st)
    | Except.ok _ => (Except.ok (), st)

/-- Model of `kill_pty` (lines 212-221): remove the entry if present,
request child termination ignoring its result, and return `Ok(())`
unconditionally. -/
def kill_pty (st : PtyState) (id : Nat) :
    Except PtyError Unit × PtyState × List Effect :=
  match mapGet id st.sessions with
  | some session =>
      (Except.ok (), { st with sessions := mapRemove id st.sessions },
       [Effect.killChild session.child])
  | none => (Except.ok (), st, [])

/-- Model of `list_pty_sessions` (lines 225-228): snapshot of the keys. -/
def list_pty_sessions (st : PtyState) : Except PtyError (List Nat) × PtyState :=
  (Except.ok (mapKeys st.sessions), st)

/-! Association-list lemmas used below. -/

theorem mapGet_mapRemove_self (k : Nat) (m : List (Nat × PtySession)) :
    mapGet k (mapRemove k m) = none := by
  induction m with
  | nil => rfl
  | cons hd tl ih =>
    obtain ⟨k2, v⟩ := hd
    by_cases h : k2 = k
    · simpa [mapRemove, h] using ih
    · have hk : ¬ k = k2 := fun hh => h hh.symm
      simp [mapRemove, h, mapGet, hk, ih]

theorem mapGet_mapRemove_ne (k j : Nat) (m : List (Nat × PtySession)) (h : k ≠ j) :
    mapGet k (mapRemove j m) = mapGet k m := by
  induction m with
  | nil => rfl
  | cons hd tl ih =>
    obtain ⟨k2, v⟩ := hd
    by_cases h2 : k2 = j
    · have hne : ¬ k = k2 := by
        intro hk; exact h (hk ▸ h2)
      simp [mapRemove, h2, mapGet, hne, ih, h]
    · by_cases h3 : k = k2 <;> simp [mapRemove, h2, mapGet, h3, ih]

theorem mapGet_mapInsert (k j : Nat) (v : PtySession) (m : List (Nat × PtySession)) :
    mapGet k (mapInsert j v m) =
      if k = j then some v else mapGet k m := by
  by_cases h : k = j
  · simp [mapInsert, mapGet, h]
  · simp [mapInsert, mapGet, h, mapGet_mapRemove_ne k j m h]

theorem mem_mapKeys_of_isSome (k : Nat) (m : List (Nat × PtySession))
    (h : (mapGet k m).isSome = true) : k ∈ mapKeys m := by
  induction m with
  | nil => simp [mapGet] at h
  | cons hd tl ih =>
    obtain ⟨k2, v⟩ := hd
    by_cases h2 : k = k2
    · simp [mapKeys, h2]
    · simp [mapGet, h2] at h
      simp [mapKeys] at ih ⊢
      exact Or.inr (ih h)

/-! The reader loop (`spawn_pty` lines 131-152) and lossy UTF-8 decoding. -/

/-- Result of one `reader.read(&mut buf)` call: either the bytes read
(`Ok(n)` together with `buf[..n]`; `n = 0` is end-of-stream) or an error. -/
inductive ReadResult where
  | ok (bytes : List Nat)
  | err
deriving DecidableEq, Repr

/-- Notification emitted to the subscriber: `pty-data` with a decoded
payload, or `pty-exit` with an optional exit code. -/
inductive Event where
  | data (id : Nat) (payload : String)
  | exit (id : Nat) (code : Option Nat)
deriving DecidableEq, Repr

/-- Whether a read result makes the reader loop break: `Ok(0)` or `Err`. -/
def isTerminal : ReadResult → Bool
  | ReadResult.ok [] => true
  | ReadResult.ok (_ :: _) => false
  | ReadResult.err => true

/-- Whether a byte is a UTF-8 continuation byte (`0x80`-`0xBF`). -/
def isCont (b : Nat) : Bool := 128 ≤ b && b ≤ 191

/-- Unicode replacement character U+FFFD. -/
def repChar : Char := Char.ofNat 0xFFFD

/-- Worker for lossy UTF-8 decoding, fuelled by the input length (each
step consumes at least one byte). Follows the replacement strategy of
Rust's `String::from_utf8_lossy`: each maximal valid prefix of an invalid
or truncated sequence becomes one U+FFFD, and the offending byte is
re-examined. -/
def utf8DecodeGo : Nat → List Nat → List Char
  | 0, _ => []
  | _ + 1, [] => []
  | fuel + 1, b :: rest =>
    if b < 128 then Char.ofNat b :: utf8DecodeGo fuel rest
    else if b < 194 then repChar :: utf8DecodeGo fuel rest
    else if b < 224 then
      match rest with
      | [] => [repChar]
      | c1 :: rest1 =>
        if isCont c1 then
          Char.ofNat ((b - 192) * 64 + (c1 - 128)) :: utf8DecodeGo fuel rest1
        else repChar :: utf8DecodeGo fuel rest
    else if b < 240 then
      let lo := if b = 224 then 160 else 128
      let hi := if b = 237 then 159 else 191
      match rest with
      | [] => [repChar]
      | c1 :: rest1 =>
        if lo ≤ c1 && c1 ≤ hi then
          match rest1 with
          | [] => [repChar]
          | c2 :: rest2 =>
            if isCont c2 then
              Char.ofNat ((b - 224) * 4096 + (c1 - 128) * 64 + (c2 - 128)) ::
                utf8DecodeGo fuel rest2
            else repChar :: utf8DecodeGo fuel rest1
        else repChar :: utf8DecodeGo fuel rest
    else if b < 245 then
      let lo := if b = 240 then 144 else 128
      let hi := if b = 244 then 143 else 191
      match rest with
      | [] => [repChar]
      | c1 :: rest1 =>
        if lo ≤ c1 && c1 ≤ hi then
          match rest1 with
          | [] => [repChar]
          | c2 :: rest2 =>
            if isCont c2 then
              match rest2 with
              | [] => [repChar]
              | c3 :: rest3 =>
                if isCont c3 then
                  Char.ofNat
                      ((b - 240) * 262144 + (c1 - 128) * 4096 + (c2 - 128) * 64 + (c3 - 128)) ::
                    utf8DecodeGo fuel rest3
                else repChar :: utf8DecodeGo fuel rest2
            else repChar :: utf8DecodeGo fuel rest1
        else repChar :: utf8DecodeGo fuel rest
    else repChar :: utf8DecodeGo fuel rest

/-- Model of `String::from_utf8_lossy(&buf[..n]).to_string()`. -/
def utf8Lossy (bytes : List Nat) : String :=
  String.mk (utf8DecodeGo bytes.length bytes)

/-- Model of the reader-loop thread body (`spawn_pty` lines 131-152),
applied to the sequence of read results the OS delivers: `Ok(0)` emits
`pty-exit` with no code and breaks; `Ok(n)` with `n > 0` emits `pty-data`
with the lossy decoding of the chunk and continues; `Err` logs, emits
`pty-exit` with no code and breaks. An exhausted result list means the
loop is still blocked in `read`, having emitted only what came before. -/
def readerLoop (id : Nat) : List ReadResult → List Event
  | [] => []
  | ReadResult.ok [] :: _ => [Event.exit id none]
  | ReadResult.err :: _ => [Event.exit id none]
  | ReadResult.ok (b :: bs) :: rest =>
      Event.data id (utf8Lossy (b :: bs)) :: readerLoop id rest

/-- Payload of a `pty-data` event, if the event is one. -/
def dataPayload : Event → Option String
  | Event.data _ s => some s
  | Event.exit _ _ => none

/-- Chunks the reader loop will decode before it observes a terminal read:
the nonempty reads preceding the first `Ok(0)` or `Err`. -/
def dataChunks : List ReadResult → List (List Nat)
  | [] => []
  | ReadResult.ok [] :: _ => []
  | ReadResult.err :: _ => []
  | ReadResult.ok (b :: bs) :: rest => (b :: bs) :: dataChunks rest

/-! Concrete oracle values used by witnesses below. -/

/-- Oracle on which every OS step of `write_pty` succeeds. -/
def ioAllOk : IoOutcome := { write := Except.ok (), flush := Except.ok () }

/-- Oracle on which every OS step of `spawn_pty` succeeds. -/
def spawnAllOk : SpawnOutcome :=
  { openPty := Except.ok 0, spawnCommand := Except.ok 0,
    cloneReader := Except.ok 0, takeWriter := Except.ok 0 }

/-- C3: `write_pty` and `resize_pty` on an identifier absent from the
registry return the `NotFound` error and leave the whole state (registry
and every registered session) unchanged, for every payload, geometry and
OS oracle. -/
theorem write_resize_absent_notFound (st : PtyState) (id : Nat)
    (h : mapGet id st.sessions = none) :
    (∀ data os, write_pty st id data os = (Except.error (PtyError.notFound id), st)) ∧
    (∀ cols rows os, resize_pty st id cols rows os = (Except.error (PtyError.notFound id), st)) := by
  constructor
  · intro data os
    simp [write_pty, h]
  · intro cols rows os
    simp [resize_pty, h]

/-- Witness for C3 at the empty initial registry and id 7. -/
theorem write_resize_absent_notFound_witness :
    mapGet 7 PtyState.default.sessions = none ∧
    write_pty PtyState.default 7 "ls" ioAllOk =
      (Except.error (PtyError.notFound 7), PtyState.default) ∧
    resize_pty PtyState.default 7 100 30 (Except.ok ()) =
      (Except.error (PtyError.notFound 7), PtyState.default) :=
  ⟨rfl,
   (write_resize_absent_notFound PtyState.default 7 rfl).1 "ls" ioAllOk,
   (write_resize_absent_notFound PtyState.default 7 rfl).2 100 30 (Except.ok ())⟩

/-- C4: `kill_pty` always returns `Ok(())`; afterwards the identifier is
absent from the registry; killing the same identifier again still
succeeds; a subsequent `write_pty` on it fails with `NotFound`; the kill
requests termination of the stored child exactly when the identifier was
present (its result being discarded), and on an absent identifier the
call is a state-preserving no-op. -/
theorem kill_pty_spec (st : PtyState) (id : Nat) :
    (kill_pty st id).1 = Except.ok () ∧
    mapGet id (kill_pty st id).2.1.sessions = none ∧
    (kill_pty (kill_pty st id).2.1 id).1 = Except.ok () ∧
    (∀ data os, (write_pty (kill_pty st id).2.1 id data os).1 =
      Except.error (PtyError.notFound id)) ∧
    (kill_pty st id).2.2 =
      (match mapGet id st.sessions with
        | some s => [Effect.killChild s.child]
        | none => []) ∧
    (mapGet id st.sessions = none → (kill_pty st id).2.1 = st) := by
  cases h : mapGet id st.sessions with
  | none =>
    refine ⟨by simp [kill_pty, h], by simp [kill_pty, h], by simp [kill_pty, h], ?_,
      by simp [kill_pty, h], fun _ => by simp [kill_pty, h]⟩
    intro data os
    simp [kill_pty, h, write_pty]
  | some s =>
    have hrem : mapGet id (mapRemove id st.sessions) = none :=
      mapGet_mapRemove_self id st.sessions
    refine ⟨by simp [kill_pty, h], by simp [kill_pty, h, hrem], ?_, ?_,
      by simp [kill_pty, h], fun hc => by simp [h] at hc⟩
    · simp [kill_pty, h, hrem]
    · intro data os
      simp [kill_pty, h, write_pty, hrem]

/-- C7: the command descriptor built by `spawn_pty` maps `TERM` to
`xterm-256color` for every `SpawnOptions`, including any caller-supplied
binding for `TERM` in any iteration order: the forced value is applied
last and takes precedence. -/
theorem buildCommand_forces_TERM (options : SpawnOptions) :
    envGet "TERM" (buildCommand options).env = some "xterm-256color" := by
  simp [buildCommand, envSet, envGet]

/-- C5: whenever the delivered read results contain a terminal one
(`Ok(0)` or `Err`), the reader loop's emissions are some `pty-data`
events followed by exactly one `pty-exit` event, which carries no exit
code and is the final emission: never zero exits, never two, and no data
after the exit. -/
theorem readerLoop_single_exit (id : Nat) (trace : List ReadResult)
    (h : trace.any isTerminal = true) :
    ∃ pre, readerLoop id trace = pre ++ [Event.exit id none] ∧
      ∀ e ∈ pre, ∃ s, e = Event.data id s := by
  induction trace with
  | nil => simp at h
  | cons r rest ih =>
    cases r with
    | err => exact ⟨[], rfl, by simp⟩
    | ok bytes =>
      cases bytes with
      | nil => exact ⟨[], rfl, by simp⟩
      | cons b bs =>
        have hrest : rest.any isTerminal = true := by
          simpa [isTerminal] using h
        obtain ⟨pre, hpre, hdata⟩ := ih hrest
        refine ⟨Event.data id (utf8Lossy (b :: bs)) :: pre, ?_, ?_⟩
        · simp [readerLoop, hpre]
        · intro e he
          rcases List.mem_cons.mp he with he | he
          · exact ⟨utf8Lossy (b :: bs), he⟩
          · exact hdata e he

/-- Witness for C5: a data read followed by an error read yields one data
event and then the single exit event. -/
theorem readerLoop_single_exit_witness :
    ([ReadResult.ok [104, 105], ReadResult.err].any isTerminal = true) ∧
    (∃ pre, readerLoop 3 [ReadResult.ok [104, 105], ReadResult.err] =
        pre ++ [Event.exit 3 none] ∧
      ∀ e ∈ pre, ∃ s, e = Event.data 3 s) :=
  ⟨rfl, readerLoop_single_exit 3 [ReadResult.ok [104, 105], ReadResult.err] rfl⟩

/-- C8: the payloads of the data events emitted by the reader loop are
exactly the lossy UTF-8 decodings of the chunks it read, chunk by chunk;
a nonempty read of any bytes, valid UTF-8 or not, emits its decoding and
continues the loop rather than failing; invalid bytes come out as the
replacement character, as the two concrete decodings show. -/
theorem readerLoop_lossy_decode (id : Nat) (trace : List ReadResult) :
    ((readerLoop id trace).filterMap dataPayload = (dataChunks trace).map utf8Lossy) ∧
    (∀ b bs rest, readerLoop id (ReadResult.ok (b :: bs) :: rest) =
      Event.data id (utf8Lossy (b :: bs)) :: readerLoop id rest) ∧
    utf8Lossy [255] = String.mk [repChar] ∧
    utf8Lossy [104, 255, 105] = String.mk [Char.ofNat 104, repChar, Char.ofNat 105] := by
  refine ⟨?_, fun b bs rest => rfl, rfl, rfl⟩
  induction trace with
  | nil => rfl
  | cons r rest ih =>
    cases r with
    | err => rfl
    | ok bytes =>
      cases bytes with
      | nil => rfl
      | cons b bs => simp [readerLoop, dataChunks, dataPayload, ih]

/-- C6: when `openpty` fails, or `openpty` succeeds and `spawn_command`
fails, `spawn_pty` returns the corresponding descriptive error and the
state is exactly as before the call: no registry entry is created and the
identifier allocator is untouched. -/
theorem spawn_early_failure_no_effect (st : PtyState) (options : SpawnOptions)
    (os : SpawnOutcome)
    (h : (∃ e, os.openPty = Except.error e) ∨ (∃ e, os.spawnCommand = Except.error e)) :
    (spawn_pty st options os).2.1 = st ∧
    (spawn_pty st options os).2.2 = [] ∧
    ∃ e, (spawn_pty st options os).1 = Except.error (PtyError.openPtyFailed e) ∨
      (spawn_pty st options os).1 = Except.error (PtyError.spawnCommandFailed e) := by
  cases hopen : os.openPty with
  | error e => exact ⟨by simp [spawn_pty, hopen], by simp [spawn_pty, hopen],
      e, Or.inl (by simp [spawn_pty, hopen])⟩
  | ok pairHandle =>
    cases hcmd : os.spawnCommand with
    | error e => exact ⟨by simp [spawn_pty, hopen, hcmd], by simp [spawn_pty, hopen, hcmd],
        e, Or.inr (by simp [spawn_pty, hopen, hcmd])⟩
    | ok childHandle =>
      rcases h with ⟨e, he⟩ | ⟨e, he⟩
      · rw [hopen] at he; cases he
      · rw [hcmd] at he; cases he

/-- Witness for C6 with a failing `openpty`. -/
theorem spawn_early_failure_no_effect_witness :
    ((∃ e, (SpawnOutcome.mk (Except.error "no pty") (Except.ok 0) (Except.ok 0)
        (Except.ok 0)).openPty = Except.error e) ∨
      (∃ e, (SpawnOutcome.mk (Except.error "no pty") (Except.ok 0) (Except.ok 0)
        (Except.ok 0)).spawnCommand = Except.error e)) ∧
    (spawn_pty PtyState.default (SpawnOptions.mk "sh" [] "/" 80 24 [])
      (SpawnOutcome.mk (Except.error "no pty") (Except.ok 0) (Except.ok 0)
        (Except.ok 0))).2.1 = PtyState.default ∧
    (spawn_pty PtyState.default (SpawnOptions.mk "sh" [] "/" 80 24 [])
      (SpawnOutcome.mk (Except.error "no pty") (Except.ok 0) (Except.ok 0)
        (Except.ok 0))).2.2 = [] ∧
    ∃ e, (spawn_pty PtyState.default (SpawnOptions.mk "sh" [] "/" 80 24 [])
        (SpawnOutcome.mk (Except.error "no pty") (Except.ok 0) (Except.ok 0)
          (Except.ok 0))).1 = Except.error (PtyError.openPtyFailed e) ∨
      (spawn_pty PtyState.default (SpawnOptions.mk "sh" [] "/" 80 24 [])
        (SpawnOutcome.mk (Except.error "no pty") (Except.ok 0) (Except.ok 0)
          (Except.ok 0))).1 = Except.error (PtyError.spawnCommandFailed e) :=
  ⟨Or.inl ⟨"no pty", rfl⟩,
   spawn_early_failure_no_effect PtyState.default (SpawnOptions.mk "sh" [] "/" 80 24 [])
     (SpawnOutcome.mk (Except.error "no pty") (Except.ok 0) (Except.ok 0) (Except.ok 0))
     (Or.inl ⟨"no pty", rfl⟩)⟩

/-- C10: when the child process has been started but cloning the reader
or taking the writer fails, `spawn_pty` returns an error, creates no
registry entry, leaves the allocator advanced by one (wrapping u32) —
the identifier is consumed — and requests no termination of the
already-started child. -/
theorem spawn_late_failure_consumes_id (st : PtyState) (options : SpawnOptions)
    (os : SpawnOutcome) (pairHandle childHandle : Nat)
    (hopen : os.openPty = Except.ok pairHandle)
    (hcmd : os.spawnCommand = Except.ok childHandle)
    (h : (∃ e, os.cloneReader = Except.error e) ∨ (∃ e, os.takeWriter = Except.error e)) :
    (spawn_pty st options os).2.1.sessions = st.sessions ∧
    (spawn_pty st options os).2.1.nextId = (st.nextId + 1) % 2 ^ 32 ∧
    (spawn_pty st options os).2.2 = [] ∧
    ∃ e, (spawn_pty st options os).1 = Except.error (PtyError.cloneReaderFailed e) ∨
      (spawn_pty st options os).1 = Except.error (PtyError.takeWriterFailed e) := by
  cases hclone : os.cloneReader with
  | error e =>
    exact ⟨by simp [spawn_pty, hopen, hcmd, hclone],
      by simp [spawn_pty, hopen, hcmd, hclone],
      by simp [spawn_pty, hopen, hcmd, hclone],
      e, Or.inl (by simp [spawn_pty, hopen, hcmd, hclone])⟩
  | ok readerHandle =>
    cases htake : os.takeWriter with
    | error e =>
      exact ⟨by simp [spawn_pty, hopen, hcmd, hclone, htake],
        by simp [spawn_pty, hopen, hcmd, hclone, htake],
        by simp [spawn_pty, hopen, hcmd, hclone, htake],
        e, Or.inr (by simp [spawn_pty, hopen, hcmd, hclone, htake])⟩
    | ok writerHandle =>
      rcases h with ⟨e, he⟩ | ⟨e, he⟩
      · rw [hclone] at he; cases he
      · rw [htake] at he; cases he

/-- Witness for C10 with a failing `try_clone_reader`. -/
theorem spawn_late_failure_consumes_id_witness :
    (SpawnOutcome.mk (Except.ok 0) (Except.ok 0) (Except.error "clone failed")
      (Except.ok 0)).openPty = Except.ok 0 ∧
    (spawn_pty PtyState.default (SpawnOptions.mk "sh" [] "/" 80 24 [])
      (SpawnOutcome.mk (Except.ok 0) (Except.ok 0) (Except.error "clone failed")
        (Except.ok 0))).2.1.sessions = PtyState.default.sessions ∧
    (spawn_pty PtyState.default (SpawnOptions.mk "sh" [] "/" 80 24 [])
      (SpawnOutcome.mk (Except.ok 0) (Except.ok 0) (Except.error "clone failed")
        (Except.ok 0))).2.1.nextId = (PtyState.default.nextId + 1) % 2 ^ 32 ∧
    (spawn_pty PtyState.default (SpawnOptions.mk "sh" [] "/" 80 24 [])
      (SpawnOutcome.mk (Except.ok 0) (Except.ok 0) (Except.error "clone failed")
        (Except.ok 0))).2.2 = [] ∧
    ∃ e, (spawn_pty PtyState.default (SpawnOptions.mk "sh" [] "/" 80 24 [])
        (SpawnOutcome.mk (Except.ok 0) (Except.ok 0) (Except.error "clone failed")
          (Except.ok 0))).1 = Except.error (PtyError.cloneReaderFailed e) ∨
      (spawn_pty PtyState.default (SpawnOptions.mk "sh" [] "/" 80 24 [])
        (SpawnOutcome.mk (Except.ok 0) (Except.ok 0) (Except.error "clone failed")
          (Except.ok 0))).1 = Except.error (PtyError.takeWriterFailed e) := by
  have h := spawn_late_failure_consumes_id PtyState.default
    (SpawnOptions.mk "sh" [] "/" 80 24 [])
    (SpawnOutcome.mk (Except.ok 0) (Except.ok 0) (Except.error "clone failed") (Except.ok 0))
    0 0 rfl rfl (Or.inl ⟨"clone failed", rfl⟩)
  exact ⟨rfl, h.1, h.2.1, h.2.2.1, h.2.2.2⟩

/-! Lock-scope model for the control operations. Rust `MutexGuard`s live
until the end of their lexical scope, so each operation's body is read
off as a sequence of steps in source order, with the registry guard's
lifetime given by where the binding is dropped. -/

/-- OS calls the control surface makes. -/
inductive SyscallKind where
  | openPty
  | spawnCommand
  | cloneReader
  | takeWriter
  | writeAll
  | flush
  | resizeWin
  | killChild
deriving DecidableEq, Repr

/-- Blocking PTY syscalls named by the shared-resource policy: write,
flush, resize, and process kill. -/
def blockingPtySyscall : SyscallKind → Bool
  | SyscallKind.writeAll => true
  | SyscallKind.flush => true
  | SyscallKind.resizeWin => true
  | SyscallKind.killChild => true
  | _ => false

/-- One step of a control operation, as ordered in the source. -/
inductive Step where
  | lockRegistry
  | unlockRegistry
  | dictOp
  | fetchAddId
  | lockWriter
  | unlockWriter
  | syscall (k : SyscallKind)
  | startReaderThread
deriving DecidableEq, Repr

/-- Steps of `spawn_pty` on its success path (lines 71-154): all OS work
happens before the narrow `{ ... }` block of lines 116-126 that locks the
registry just for the insert; the reader thread starts after the guard is
dropped. -/
def spawnPtySteps : List Step :=
  [Step.syscall SyscallKind.openPty,
   Step.syscall SyscallKind.spawnCommand,
   Step.fetchAddId,
   Step.syscall SyscallKind.cloneReader,
   Step.syscall SyscallKind.takeWriter,
   Step.lockRegistry, Step.dictOp, Step.unlockRegistry,
   Step.startReaderThread]

/-- Steps of `write_pty` on its success path (lines 164-180): the
registry guard bound at line 164 is dropped only at the end of the
function, after `write_all` and `flush` (guards drop in reverse binding
order, so the writer guard is released first). -/
def writePtySteps : List Step :=
  [Step.lockRegistry, Step.dictOp, Step.lockWriter,
   Step.syscall SyscallKind.writeAll, Step.syscall SyscallKind.flush,
   Step.unlockWriter, Step.unlockRegistry]

/-- Steps of `resize_pty` on its success path (lines 191-207): the
registry guard bound at line 191 is dropped at the end of the function,
after the resize call. -/
def resizePtySteps : List Step :=
  [Step.lockRegistry, Step.dictOp,
   Step.syscall SyscallKind.resizeWin, Step.unlockRegistry]

/-- Steps of `kill_pty` when the identifier is present (lines 213-220):
the registry guard bound at line 213 is dropped at the end of the
function, after `child.kill()`. -/
def killPtySteps : List Step :=
  [Step.lockRegistry, Step.dictOp,
   Step.syscall SyscallKind.killChild, Step.unlockRegistry]

/-- Steps of `list_pty_sessions` (lines 226-227). -/
def listPtySessionsSteps : List Step :=
  [Step.lockRegistry, Step.dictOp, Step.unlockRegistry]

/-- Worker deciding whether some blocking PTY syscall is performed while
the registry lock is held, given whether it is currently held. -/
def regHeldAcrossBlockingGo : Bool → List Step → Bool
  | _, [] => false
  | _, Step.lockRegistry :: rest => regHeldAcrossBlockingGo true rest
  | _, Step.unlockRegistry :: rest => regHeldAcrossBlockingGo false rest
  | held, Step.syscall k :: rest =>
      (held && blockingPtySyscall k) || regHeldAcrossBlockingGo held rest
  | held, _ :: rest => regHeldAcrossBlockingGo held rest

/-- Whether an operation performs a blocking PTY syscall while holding
the registry-wide lock. -/
def regHeldAcrossBlocking (steps : List Step) : Bool :=
  regHeldAcrossBlockingGo false steps

/-- C2 counterexample: `write_pty` performs the blocking `write_all` and
`flush` syscalls while the registry-wide lock is still held, because its
registry guard lives to the end of the function; the claim that no
control operation does so is therefore false. -/
theorem write_pty_blocks_under_registry_lock :
    regHeldAcrossBlocking writePtySteps = true := rfl

/-- C2 amended: the registry lock is held only around the dictionary
operation in `spawn_pty` and `list_pty_sessions`, but `write_pty`,
`resize_pty` and `kill_pty` each hold it across their blocking PTY
syscall (write/flush, resize, and child kill respectively). -/
theorem registry_lock_scope_by_operation :
    regHeldAcrossBlocking spawnPtySteps = false ∧
    regHeldAcrossBlocking listPtySessionsSteps = false ∧
    regHeldAcrossBlocking writePtySteps = true ∧
    regHeldAcrossBlocking resizePtySteps = true ∧
    regHeldAcrossBlocking killPtySteps = true :=
  ⟨rfl, rfl, rfl, rfl, rfl⟩

/-! Traces of control operations against one shared `PtyState`, for the
identifier-allocation and registry-lifecycle claims. -/

/-- One invocation of the control surface, with the OS oracle outcomes it
runs against; `readerRead` is one iteration of some session's reader
thread, which only reads and emits and never touches `PtyState`. -/
inductive Op where
  | spawn (options : SpawnOptions) (os : SpawnOutcome)
  | write (id : Nat) (data : String) (os : IoOutcome)
  | resize (id : Nat) (cols rows : Nat) (os : Except String Unit)
  | kill (id : Nat)
  | list
  | readerRead (id : Nat) (r : ReadResult)
deriving DecidableEq, Repr

/-- State transition of one operation. -/
def run1 (st : PtyState) : Op → PtyState
  | Op.spawn options os => (spawn_pty st options os).2.1
  | Op.write id data os => (write_pty st id data os).2
  | Op.resize id cols rows os => (resize_pty st id cols rows os).2
  | Op.kill id => (kill_pty st id).2.1
  | Op.list => (list_pty_sessions st).2
  | Op.readerRead _ _ => st

/-- State after a sequence of operations. -/
def run (st : PtyState) : List Op → PtyState
  | [] => st
  | op :: ops => run (run1 st op) ops

/-- Whether an operation consumes an identifier: a spawn whose `openpty`
and `spawn_command` both succeed reaches the `fetch_add` at line 101,
even if a later spawn step fails. -/
def consumesId : Op → Bool
  | Op.spawn _ os =>
    (match os.openPty with | Except.ok _ => true | Except.error _ => false) &&
    (match os.spawnCommand with | Except.ok _ => true | Except.error _ => false)
  | _ => false

/-- Number of identifiers consumed along a trace. -/
def countConsumed : List Op → Nat
  | [] => 0
  | op :: ops => (if consumesId op then 1 else 0) + countConsumed ops

/-- Identifier returned by an operation when it is a fully successful
spawn. -/
def spawnResult (st : PtyState) : Op → Option Nat
  | Op.spawn options os =>
    match (spawn_pty st options os).1 with
    | Except.ok id => some id
    | Except.error _ => none
  | _ => none

/-- Identifiers returned by the successful spawns of a trace, in call
order. -/
def returnedIds (st : PtyState) : List Op → List Nat
  | [] => []
  | op :: ops =>
    match spawnResult st op with
    | some id => id :: returnedIds (run1 st op) ops
    | none => returnedIds (run1 st op) ops

/-- A successful spawn returns the pre-call `next_id` and is
id-consuming. -/
theorem spawnResult_eq (st : PtyState) (op : Op) (id : Nat)
    (h : spawnResult st op = some id) :
    id = st.nextId ∧ consumesId op = true := by
  cases op with
  | spawn options os =>
    cases hopen : os.openPty with
    | error e => simp [spawnResult, spawn_pty, hopen] at h
    | ok pairHandle =>
      cases hcmd : os.spawnCommand with
      | error e => simp [spawnResult, spawn_pty, hopen, hcmd] at h
      | ok childHandle =>
        cases hclone : os.cloneReader with
        | error e => simp [spawnResult, spawn_pty, hopen, hcmd, hclone] at h
        | ok readerHandle =>
          cases htake : os.takeWriter with
          | error e => simp [spawnResult, spawn_pty, hopen, hcmd, hclone, htake] at h
          | ok writerHandle =>
            simp [spawnResult, spawn_pty, hopen, hcmd, hclone, htake] at h
            simp [consumesId, hopen, hcmd, h.symm]
  | write id2 data os => simp [spawnResult] at h
  | resize id2 cols rows os => simp [spawnResult] at h
  | kill id2 => simp [spawnResult] at h
  | list => simp [spawnResult] at h
  | readerRead id2 r => simp [spawnResult] at h

/-- How one operation changes `next_id`: a `fetch_add` with u32 wrap for
id-consuming spawns, untouched otherwise. -/
theorem run1_nextId (st : PtyState) (op : Op) :
    (run1 st op).nextId =
      if consumesId op then (st.nextId + 1) % 2 ^ 32 else st.nextId := by
  cases op with
  | spawn options os =>
    cases hopen : os.openPty with
    | error e => simp [run1, spawn_pty, consumesId, hopen]
    | ok pairHandle =>
      cases hcmd : os.spawnCommand with
      | error e => simp [run1, spawn_pty, consumesId, hopen, hcmd]
      | ok childHandle =>
        cases hclone : os.cloneReader with
        | error e => simp [run1, spawn_pty, consumesId, hopen, hcmd, hclone]
        | ok readerHandle =>
          cases htake : os.takeWriter with
          | error e => simp [run1, spawn_pty, consumesId, hopen, hcmd, hclone, htake]
          | ok writerHandle => simp [run1, spawn_pty, consumesId, hopen, hcmd, hclone, htake]
  | write id data os =>
    cases h : mapGet id st.sessions with
    | none => simp [run1, write_pty, consumesId, h]
    | some s =>
      cases hw : os.write with
      | error e => simp [run1, write_pty, consumesId, h, hw]
      | ok u =>
        cases hf : os.flush with
        | error e => simp [run1, write_pty, consumesId, h, hw, hf]
        | ok u2 => simp [run1, write_pty, consumesId, h, hw, hf]
  | resize id cols rows os =>
    cases h : mapGet id st.sessions with
    | none => simp [run1, resize_pty, consumesId, h]
    | some s =>
      cases os with
      | error e => simp [run1, resize_pty, consumesId, h]
      | ok u => simp [run1, resize_pty, consumesId, h]
  | kill id =>
    cases h : mapGet id st.sessions with
    | none => simp [run1, kill_pty, consumesId, h]
    | some s => simp [run1, kill_pty, consumesId, h]
  | list => simp [run1, list_pty_sessions, consumesId]
  | readerRead id r => simp [run1, consumesId]

/-- A trace that consumes no identifier returns no spawn identifiers. -/
theorem returnedIds_nil_of_countConsumed_zero :
    ∀ (ops : List Op) (st : PtyState), countConsumed ops = 0 → returnedIds st ops = [] := by
  intro ops
  induction ops with
  | nil => intro st _; rfl
  | cons op rest ih =>
    intro st h
    have hop : consumesId op = false := by
      by_cases hc : consumesId op
      · simp [countConsumed, hc] at h
      · simpa using hc
    have hrest : countConsumed rest = 0 := by
      simpa [countConsumed, hop] using h
    cases hs : spawnResult st op with
    | none => simpa [returnedIds, hs] using ih (run1 st op) hrest
    | some id =>
      have := (spawnResult_eq st op id hs).2
      rw [hop] at this
      cases this

/-- Identifiers returned along a trace are bounded below by the current
`next_id` and strictly increasing, as long as the trace does not exhaust
the 32-bit space (`next_id` plus the identifiers still to consume stays
within `2 ^ 32`). -/
theorem returnedIds_mono :
    ∀ (ops : List Op) (st : PtyState),
      st.nextId + countConsumed ops ≤ 2 ^ 32 →
      (∀ i ∈ returnedIds st ops, st.nextId ≤ i) ∧
      List.Pairwise (· < ·) (returnedIds st ops) := by
  intro ops
  induction ops with
  | nil => intro st _; exact ⟨by simp [returnedIds], by simp [returnedIds]⟩
  | cons op rest ih =>
    intro st h
    by_cases hc : consumesId op
    · have hcount : st.nextId + (1 + countConsumed rest) ≤ 2 ^ 32 := by
        simpa [countConsumed, hc] using h
      have hn : (run1 st op).nextId = (st.nextId + 1) % 2 ^ 32 := by
        rw [run1_nextId]; simp [hc]
      by_cases hlt : st.nextId + 1 < 2 ^ 32
      · have hmod : (st.nextId + 1) % 2 ^ 32 = st.nextId + 1 := Nat.mod_eq_of_lt hlt
        have h' : (run1 st op).nextId + countConsumed rest ≤ 2 ^ 32 := by
          rw [hn, hmod]; omega
        obtain ⟨hb, hp⟩ := ih (run1 st op) h'
        rw [hn, hmod] at hb
        cases hs : spawnResult st op with
        | some id =>
          have hid : id = st.nextId := (spawnResult_eq st op id hs).1
          refine ⟨?_, ?_⟩
          · intro i hi
            simp only [returnedIds, hs] at hi
            rcases List.mem_cons.mp hi with hi | hi
            · omega
            · have := hb i hi; omega
          · simp only [returnedIds, hs]
            refine List.pairwise_cons.mpr ⟨?_, hp⟩
            intro y hy
            have := hb y hy; omega
        | none =>
          refine ⟨?_, ?_⟩
          · intro i hi
            simp only [returnedIds, hs] at hi
            have := hb i hi; omega
          · simpa only [returnedIds, hs] using hp
      · have hz : countConsumed rest = 0 := by omega
        have hnil : returnedIds (run1 st op) rest = [] :=
          returnedIds_nil_of_countConsumed_zero rest (run1 st op) hz
        cases hs : spawnResult st op with
        | some id =>
          have hid : id = st.nextId := (spawnResult_eq st op id hs).1
          refine ⟨?_, ?_⟩
          · intro i hi
            simp only [returnedIds, hs, hnil] at hi
            simp at hi
            omega
          · simp [returnedIds, hs, hnil]
        | none =>
          refine ⟨?_, ?_⟩
          · intro i hi
            simp [returnedIds, hs, hnil] at hi
          · simp [returnedIds, hs, hnil]
    · have hn : (run1 st op).nextId = st.nextId := by
        rw [run1_nextId]; simp [hc]
      have h' : (run1 st op).nextId + countConsumed rest ≤ 2 ^ 32 := by
        rw [hn]
        simpa [countConsumed, hc] using h
      obtain ⟨hb, hp⟩ := ih (run1 st op) h'
      cases hs : spawnResult st op with
      | some id =>
        have := (spawnResult_eq st op id hs).2
        rw [this] at hc
        simp at hc
      | none =>
        refine ⟨?_, ?_⟩
        · intro i hi
          simp only [returnedIds, hs] at hi
          have := hb i hi
          omega
        · simpa only [returnedIds, hs] using hp

/-- C1 amended: allocation starts at 1 and, over any trace of operations
that consumes fewer than `2 ^ 32` identifiers, the identifiers returned
by successful spawns are pairwise strictly increasing in call order — in
particular unique. Beyond `2 ^ 32` allocations the `AtomicU32`
`fetch_add` wraps and the guarantee is lost. -/
theorem spawn_ids_strict_mono_before_wrap (ops : List Op)
    (h : countConsumed ops < 2 ^ 32) :
    PtyState.default.nextId = 1 ∧
    List.Pairwise (· < ·) (returnedIds PtyState.default ops) :=
  ⟨rfl, (returnedIds_mono ops PtyState.default (by simp [PtyState.default]; omega)).2⟩

/-- Canonical fully successful spawn invocation. -/
def opSpawnOk : Op :=
  Op.spawn (SpawnOptions.mk "sh" [] "/" 80 24 []) spawnAllOk

/-- A fully successful spawn returns the pre-call `next_id`. -/
theorem spawnResult_opSpawnOk (st : PtyState) :
    spawnResult st opSpawnOk = some st.nextId := rfl

/-- Witness for the amended C1 on a two-spawn trace. -/
theorem spawn_ids_strict_mono_before_wrap_witness :
    countConsumed [opSpawnOk, opSpawnOk] < 2 ^ 32 ∧
    (PtyState.default.nextId = 1 ∧
     List.Pairwise (· < ·) (returnedIds PtyState.default [opSpawnOk, opSpawnOk])) :=
  ⟨by decide, spawn_ids_strict_mono_before_wrap [opSpawnOk, opSpawnOk] (by decide)⟩

/-- After `n` fully successful spawns, `next_id` is the start value plus
`n`, wrapped to 32 bits. -/
theorem run_replicate_nextId :
    ∀ (n : Nat) (st : PtyState), st.nextId < 2 ^ 32 →
      (run st (List.replicate n opSpawnOk)).nextId = (st.nextId + n) % 2 ^ 32 := by
  intro n
  induction n with
  | zero =>
    intro st h
    show st.nextId = (st.nextId + 0) % 2 ^ 32
    rw [Nat.add_zero, Nat.mod_eq_of_lt h]
  | succ n ih =>
    intro st h
    rw [List.replicate_succ]
    show (run (run1 st opSpawnOk) (List.replicate n opSpawnOk)).nextId = _
    have hn : (run1 st opSpawnOk).nextId = (st.nextId + 1) % 2 ^ 32 := by
      rw [run1_nextId]; rfl
    have hlt : (run1 st opSpawnOk).nextId < 2 ^ 32 := by
      rw [hn]; exact Nat.mod_lt _ (by norm_num)
    rw [ih (run1 st opSpawnOk) hlt, hn, Nat.mod_add_mod]
    have harith : st.nextId + 1 + n = st.nextId + (n + 1) := by omega
    rw [harith]

/-- C1 counterexample: starting from the default state, the first
successful spawn returns identifier 1; after `2 ^ 32 - 1` further
successful spawns the wrapped allocator makes the next successful spawn
return 0, which is not greater than 1; and the spawn after that returns
1 a second time. Identifier allocation is therefore neither strictly
increasing nor free of reuse across the process lifetime. -/
theorem spawn_id_wrap_counterexample :
    spawnResult PtyState.default opSpawnOk = some 1 ∧
    spawnResult (run PtyState.default (List.replicate (2 ^ 32 - 1) opSpawnOk)) opSpawnOk =
      some 0 ∧
    spawnResult (run PtyState.default (List.replicate (2 ^ 32) opSpawnOk)) opSpawnOk =
      some 1 ∧
    ¬ (1 < 0) := by
  have hdef : PtyState.default.nextId < 2 ^ 32 := by norm_num [PtyState.default]
  refine ⟨rfl, ?_, ?_, by omega⟩
  · rw [spawnResult_opSpawnOk, run_replicate_nextId (2 ^ 32 - 1) PtyState.default hdef]
    norm_num [PtyState.default]
  · rw [spawnResult_opSpawnOk, run_replicate_nextId (2 ^ 32) PtyState.default hdef]
    norm_num [PtyState.default]

/-- `write_pty` returns the state unchanged on every path. -/
theorem write_pty_state (st : PtyState) (id : Nat) (data : String) (os : IoOutcome) :
    (write_pty st id data os).2 = st := by
  cases h : mapGet id st.sessions with
  | none => simp [write_pty, h]
  | some s =>
    cases hw : os.write with
    | error e => simp [write_pty, h, hw]
    | ok u =>
      cases hf : os.flush with
      | error e => simp [write_pty, h, hw, hf]
      | ok u2 => simp [write_pty, h, hw, hf]

/-- `resize_pty` returns the state unchanged on every path. -/
theorem resize_pty_state (st : PtyState) (id : Nat) (cols rows : Nat)
    (os : Except String Unit) :
    (resize_pty st id cols rows os).2 = st := by
  cases h : mapGet id st.sessions with
  | none => simp [resize_pty, h]
  | some s =>
    cases os with
    | error e => simp [resize_pty, h]
    | ok u => simp [resize_pty, h]

/-- Any single operation other than `kill id` keeps `id` registered. -/
theorem run1_preserves_session (st : PtyState) (op : Op) (id : Nat)
    (hne : op ≠ Op.kill id) (h : (mapGet id st.sessions).isSome = true) :
    (mapGet id (run1 st op).sessions).isSome = true := by
  cases op with
  | spawn options os =>
    cases hopen : os.openPty with
    | error e => simpa [run1, spawn_pty, hopen] using h
    | ok pairHandle =>
      cases hcmd : os.spawnCommand with
      | error e => simpa [run1, spawn_pty, hopen, hcmd] using h
      | ok childHandle =>
        cases hclone : os.cloneReader with
        | error e => simpa [run1, spawn_pty, hopen, hcmd, hclone] using h
        | ok readerHandle =>
          cases htake : os.takeWriter with
          | error e => simpa [run1, spawn_pty, hopen, hcmd, hclone, htake] using h
          | ok writerHandle =>
            simp only [run1, spawn_pty, hopen, hcmd, hclone, htake]
            rw [mapGet_mapInsert]
            by_cases hid : id = st.nextId
            · simp [hid]
            · simpa [hid] using h
  | write id2 data os => simpa [run1, write_pty_state] using h
  | resize id2 cols rows os => simpa [run1, resize_pty_state] using h
  | kill id2 =>
    have hid : id2 ≠ id := by
      intro hk
      exact hne (by rw [hk])
    cases hk : mapGet id2 st.sessions with
    | none => simpa [run1, kill_pty, hk] using h
    | some s =>
      simp only [run1, kill_pty, hk]
      rw [mapGet_mapRemove_ne id id2 st.sessions (fun hh => hid hh.symm)]
      exact h
  | list => simpa [run1, list_pty_sessions] using h
  | readerRead id2 r => simpa [run1] using h

/-- A trace with no `kill id` keeps `id` registered. -/
theorem run_preserves_session :
    ∀ (ops : List Op) (st : PtyState) (id : Nat),
      (∀ op ∈ ops, op ≠ Op.kill id) →
      (mapGet id st.sessions).isSome = true →
      (mapGet id (run st ops).sessions).isSome = true := by
  intro ops
  induction ops with
  | nil => intro st id _ h; exact h
  | cons op rest ih =>
    intro st id hne h
    exact ih (run1 st op) id (fun o ho => hne o (List.mem_cons_of_mem op ho))
      (run1_preserves_session st op id (hne op (List.mem_cons_self op rest)) h)

/-- C9: the reader loop never mutates the manager state, and a registered
identifier stays in the registry — and hence in the snapshot returned by
`list_pty_sessions` — across any sequence of operations that contains no
`kill` of that identifier, including reader iterations that emit the exit
notification. Only an explicit kill removes the entry. -/
theorem registry_removed_only_by_kill (st : PtyState) (id : Nat) (ops : List Op)
    (h1 : (mapGet id st.sessions).isSome = true)
    (h2 : ∀ op ∈ ops, op ≠ Op.kill id) :
    (∀ (s : PtyState) (i : Nat) (r : ReadResult), run1 s (Op.readerRead i r) = s) ∧
    (list_pty_sessions (run st ops)).1 = Except.ok (mapKeys (run st ops).sessions) ∧
    id ∈ mapKeys (run st ops).sessions :=
  ⟨fun _ _ _ => rfl, rfl,
   mem_mapKeys_of_isSome id (run st ops).sessions (run_preserves_session ops st id h2 h1)⟩

/-- A one-session state used by the C9 witness. -/
def stOne : PtyState :=
  { sessions := [(1, ⟨0, 0, 0⟩)], nextId := 2 }

/-- Witness for C9: session 1 has exited (its reader loop read `Ok(0)`
and emitted the exit event) but `list` still reports it, since no kill
ran. -/
theorem registry_removed_only_by_kill_witness :
    (mapGet 1 stOne.sessions).isSome = true ∧
    (∀ op ∈ ([Op.readerRead 1 (ReadResult.ok []), Op.list] : List Op), op ≠ Op.kill 1) ∧
    readerLoop 1 [ReadResult.ok []] = [Event.exit 1 none] ∧
    1 ∈ mapKeys (run stOne [Op.readerRead 1 (ReadResult.ok []), Op.list]).sessions := by
  refine ⟨rfl, by decide, rfl, ?_⟩
  exact (registry_removed_only_by_kill stOne 1
    [Op.readerRead 1 (ReadResult.ok []), Op.list] rfl (by decide)).2.2

/-- Witness for C4 at the one-session state and id 1. -/
theorem kill_pty_spec_witness :
    (kill_pty stOne 1).1 = Except.ok () ∧
    mapGet 1 (kill_pty stOne 1).2.1.sessions = none ∧
    (kill_pty (kill_pty stOne 1).2.1 1).1 = Except.ok () ∧
    (∀ data os, (write_pty (kill_pty stOne 1).2.1 1 data os).1 =
      Except.error (PtyError.notFound 1)) ∧
    (kill_pty stOne 1).2.2 =
      (match mapGet 1 stOne.sessions with
        | some s => [Effect.killChild s.child]
        | none => []) ∧
    (mapGet 1 stOne.sessions = none → (kill_pty stOne 1).2.1 = stOne) :=
  kill_pty_spec stOne 1
